import Mathlib

/-!
Verification of the SDVN-Forge model loader core: a shallow embedding of
`backend/loader.py` and `backend/operations_bnb.py`, together with proofs of
the specification's claims about storage-dtype selection, state-dict
partitioning, 4-bit quantization state handling, and loader error handling.

Conventions of the embedding:
* torch dtypes (including the bitsandbytes string tags `nf4`/`fp4`) become the
  inductive `Dtype`;
* a state dict is an association list `List (String × Nat)` whose values are
  abstract tensor identifiers (tensor numerics are irrelevant to the claims);
* functions of this repository that live outside the provided source tree
  (`backend/state_dict.py`, the `huggingface_guess` package, the bitsandbytes
  pack/unpack routines) are modelled from the spec, and each such definition
  says so in its doc comment.
-/

namespace Forge

/-- Element dtypes that occur in the loader: the floating formats torch
exposes, the two float8 variants, and the two bitsandbytes 4-bit tags that the
source handles as the strings `'nf4'` / `'fp4'`. -/
inductive Dtype where
  | float32
  | float16
  | bfloat16
  | float8_e4m3fn
  | float8_e5m2
  | nf4
  | fp4
  deriving DecidableEq, Repr

/-- The test on `loader.py` line 110: the detected state-dict dtype is one of
`[torch.float8_e4m3fn, torch.float8_e5m2, 'nf4', 'fp4']`. -/
def is_quantized_format (d : Dtype) : Bool :=
  d = Dtype.float8_e4m3fn ∨ d = Dtype.float8_e5m2 ∨ d = Dtype.nf4 ∨ d = Dtype.fp4

/-- The test on `loader.py` lines 113 and 120: the dtype is one of the packed
4-bit bitsandbytes tags `['nf4', 'fp4']`. -/
def is_bnb_4bit (d : Dtype) : Bool :=
  d = Dtype.nf4 ∨ d = Dtype.fp4

/-- Storage-dtype decision for the main backbone, `loader.py` lines 103-114.
`policy_dtype` is the value `memory_management.unet_dtype(...)` returned (that
function is not part of the provided sources, so its result is a parameter),
`overwrite` is `backend.args.dynamic_args.get('forge_unet_storage_dtype')`,
and `sd_dtype` is the dtype detected in the component's state dict. -/
def unet_storage_dtype (policy_dtype : Dtype) (overwrite : Option Dtype)
    (sd_dtype : Dtype) : Dtype :=
  match overwrite with
  | some d => d
  | none => if is_quantized_format sd_dtype then sd_dtype else policy_dtype

/-- The arguments the backbone branch passes to `using_forge_operations`,
`loader.py` lines 116-130. -/
structure BackboneOps where
  storage_dtype : Dtype
  computation_dtype : Dtype
  manual_cast_enabled : Bool
  bnb_dtype : Option Dtype
  deriving DecidableEq, Repr

/-- The backbone branch of `load_huggingface_component`, `loader.py` lines
103-130, restricted to the dtype/manual-cast decisions it makes.
`computation_dtype` is the value `memory_management.get_computation_dtype`
returned (again a parameter, the function being outside the sources). -/
def load_backbone_ops (policy_dtype : Dtype) (overwrite : Option Dtype)
    (sd_dtype : Dtype) (computation_dtype : Dtype) : BackboneOps :=
  let storage := unet_storage_dtype policy_dtype overwrite sd_dtype
  if is_bnb_4bit storage then
    { storage_dtype := storage
      computation_dtype := computation_dtype
      manual_cast_enabled := false
      bnb_dtype := some storage }
  else
    { storage_dtype := storage
      computation_dtype := computation_dtype
      manual_cast_enabled := storage ≠ computation_dtype
      bnb_dtype := none }

end Forge

namespace Forge

/-- C1: For every main-backbone component load, the storage dtype is decided
in priority order: a configured override wins verbatim; otherwise a quantized
detected dtype (float8_e4m3fn, float8_e5m2, nf4, fp4) is preserved; otherwise
the memory/dtype policy's choice from the supported-dtype list is used. -/
theorem backbone_storage_dtype_priority (policy_dtype : Dtype)
    (overwrite : Option Dtype) (sd_dtype : Dtype) :
    (∀ d, overwrite = some d →
      unet_storage_dtype policy_dtype overwrite sd_dtype = d) ∧
    (overwrite = none → is_quantized_format sd_dtype = true →
      unet_storage_dtype policy_dtype overwrite sd_dtype = sd_dtype) ∧
    (overwrite = none → is_quantized_format sd_dtype = false →
      unet_storage_dtype policy_dtype overwrite sd_dtype = policy_dtype) := by
  refine ⟨fun d hd => ?_, fun hn hq => ?_, fun hn hq => ?_⟩
  · simp [unet_storage_dtype, hd]
  · simp [unet_storage_dtype, hn, hq]
  · simp [unet_storage_dtype, hn, hq]

/-- Witness for `backbone_storage_dtype_priority` at concrete inputs: an
override wins even over a detected nf4 state dict, a detected float8 dtype is
preserved without an override, and a plain float16 detection falls through to
the policy dtype. -/
theorem backbone_storage_dtype_priority_spot :
    unet_storage_dtype Dtype.bfloat16 (some Dtype.float32) Dtype.nf4
      = Dtype.float32 ∧
    unet_storage_dtype Dtype.bfloat16 none Dtype.float8_e4m3fn
      = Dtype.float8_e4m3fn ∧
    unet_storage_dtype Dtype.bfloat16 none Dtype.float16 = Dtype.bfloat16 := by
  refine ⟨?_, ?_, ?_⟩
  · exact (backbone_storage_dtype_priority Dtype.bfloat16 (some Dtype.float32)
      Dtype.nf4).1 Dtype.float32 rfl
  · exact (backbone_storage_dtype_priority Dtype.bfloat16 none
      Dtype.float8_e4m3fn).2.1 rfl (by decide)
  · exact (backbone_storage_dtype_priority Dtype.bfloat16 none
      Dtype.float16).2.2 rfl (by decide)

/-- C2 counterexample: with storage dtype nf4 and computation dtype float16
(which differ), the backbone passes `manual_cast_enabled=False` to the
operations context (`loader.py` line 122), refuting the claim that the flag is
true whenever the two dtypes differ, including for nf4/fp4 storage. -/
theorem manual_cast_nf4_counterexample :
    (load_backbone_ops Dtype.float16 none Dtype.nf4
        Dtype.float16).storage_dtype = Dtype.nf4 ∧
    (load_backbone_ops Dtype.float16 none Dtype.nf4
        Dtype.float16).computation_dtype = Dtype.float16 ∧
    Dtype.nf4 ≠ Dtype.float16 ∧
    (load_backbone_ops Dtype.float16 none Dtype.nf4
        Dtype.float16).manual_cast_enabled = false := by
  decide

/-- C2 amended: for every main-backbone component load, when the chosen
storage dtype is not a packed 4-bit format the manual-cast flag equals
"storage dtype differs from computation dtype"; when the storage dtype is
nf4/fp4 the flag passed is false. -/
theorem manual_cast_amended (policy_dtype : Dtype) (overwrite : Option Dtype)
    (sd_dtype computation_dtype : Dtype) :
    (is_bnb_4bit (unet_storage_dtype policy_dtype overwrite sd_dtype)
        = false →
      (load_backbone_ops policy_dtype overwrite sd_dtype
          computation_dtype).manual_cast_enabled
        = decide (unet_storage_dtype policy_dtype overwrite sd_dtype
            ≠ computation_dtype)) ∧
    (is_bnb_4bit (unet_storage_dtype policy_dtype overwrite sd_dtype)
        = true →
      (load_backbone_ops policy_dtype overwrite sd_dtype
          computation_dtype).manual_cast_enabled = false) := by
  constructor
  · intro h
    simp [load_backbone_ops, h]
  · intro h
    simp [load_backbone_ops, h]

/-- Witness for `manual_cast_amended`: float8 storage with float16 compute
sets the flag, equal dtypes clear it, and nf4 storage always clears it. -/
theorem manual_cast_amended_spot :
    (load_backbone_ops Dtype.float8_e4m3fn none Dtype.float8_e4m3fn
        Dtype.float16).manual_cast_enabled = true ∧
    (load_backbone_ops Dtype.float16 none Dtype.float16
        Dtype.float16).manual_cast_enabled = false ∧
    (load_backbone_ops Dtype.float16 none Dtype.nf4
        Dtype.bfloat16).manual_cast_enabled = false := by
  refine ⟨?_, ?_, ?_⟩
  · have h := (manual_cast_amended Dtype.float8_e4m3fn none Dtype.float8_e4m3fn
      Dtype.float16).1 (by decide)
    simpa using h
  · have h := (manual_cast_amended Dtype.float16 none Dtype.float16
      Dtype.float16).1 (by decide)
    simpa using h
  · exact (manual_cast_amended Dtype.float16 none Dtype.nf4 Dtype.bfloat16).2
      (by decide)

end Forge

namespace Forge

/-! ## State-dict partitioning (`split_state_dict`, `loader.py` lines 151-175)

A state dict is an association list from dotted string keys to abstract
tensor identifiers (`Nat`); the numeric contents of tensors play no role in
the partitioning claims, so an identifier stands for the tensor object.
Python dict semantics (unique keys) are recovered in the theorems by the
hypotheses on the inputs. -/

abbrev SDict := List (String × Nat)

/-- Modelled from the spec: the prefix matching inside
`backend/state_dict.py`'s `try_filter_state_dict`, which is not under the
provided sources. Per spec §4.2, a key is claimed by a prefix list via
`key.startswith(prefix)` semantics with the prefix stripped on assignment;
the first matching prefix in the list wins. -/
def key_match (ps : List String) (k : String) : Option String :=
  match ps with
  | [] => none
  | p :: rest => if p.isPrefixOf k then some (k.drop p.length) else key_match rest k

/-- Modelled from the spec: `backend/state_dict.py`'s `try_filter_state_dict`
(not under the provided sources). Per spec §4.2 it carves the subset of keys
claimed by the prefix list out of the blob, stripping the prefix; the claimed
keys are removed from the blob being filtered (the partition invariant of
§4.2 requires each key to be claimed at most once). The pair returned is
(filtered subset, remaining blob). -/
def try_filter_state_dict (sd : SDict) (ps : List String) : SDict × SDict :=
  match sd with
  | [] => ([], [])
  | kv :: rest =>
    match key_match ps kv.1 with
    | some k2 => ((k2, kv.2) :: (try_filter_state_dict rest ps).1,
                  (try_filter_state_dict rest ps).2)
    | none => ((try_filter_state_dict rest ps).1,
               kv :: (try_filter_state_dict rest ps).2)

/-- Modelled from the spec: the architecture's `clipProcessing` transform
(`guess.process_clip_state_dict` of the external `huggingface_guess` package).
Per spec §3/§4.1 it is an architecture-specific key renaming applied to the
whole blob, building a new mapping with renamed keys. -/
def process_clip_state_dict (rename : String → String) (sd : SDict) : SDict :=
  sd.map (fun kv => (rename kv.1, kv.2))

/-- The loop of `split_state_dict` over `guess.clip_target.items()`,
`loader.py` lines 165-166: for each (prefix, target) pair, filter the
remaining blob by the single prefix `k + '.'`; what no target claims stays in
the remaining blob (assigned to `'ignore'` on line 168). -/
def split_clip_targets (ts : List (String × String)) (sd : SDict) :
    List (String × SDict) × SDict :=
  match ts with
  | [] => ([], sd)
  | t :: rest =>
    ((t.2, (try_filter_state_dict sd [t.1 ++ "."]).1) ::
        (split_clip_targets rest (try_filter_state_dict sd [t.1 ++ "."]).2).1,
      (split_clip_targets rest (try_filter_state_dict sd [t.1 ++ "."]).2).2)

/-- Architecture identities recognized by the guesser and matched by the
engine registry (`possible_models`, `loader.py` line 26). -/
inductive Arch where
  | sd15
  | sd20
  | sdxl
  | flux
  deriving DecidableEq, Repr

/-- The fields of the `huggingface_guess` result that `split_state_dict` and
`forge_loader` consume: the architecture identity, the repo name, the
unet/vae key-prefix lists, the clip targets (prefix to component name, after
`guess.clip_target = guess.clip_target(sd)` on line 153), and the
`clipProcessing` renaming. -/
structure Guess where
  arch : Arch
  huggingface_repo : String
  unet_target : String
  vae_target : String
  unet_key_prefixes : List String
  vae_key_prefixes : List String
  clip_target : List (String × String)
  process_clip : String → String

/-- The partition `split_state_dict` returns (`loader.py` lines 158-175):
the unet subset, the vae subset, the per-text-encoder subsets, and the keys
dropped into `'ignore'` (deleted on line 173 before returning). -/
structure SplitResult where
  unet : SDict
  vae : SDict
  clips : List (String × SDict)
  ignored : SDict

/-- `split_state_dict`, `loader.py` lines 151-175. The unet filter runs
first, then the vae filter on what remains — unless an external VAE blob is
supplied, in which case that blob is used verbatim and the vae filter never
touches the main blob (line 160). The remainder then passes once through
`process_clip_state_dict` (line 163) before the per-target clip filtering
(lines 165-166). -/
def split_state_dict (g : Guess) (sd : SDict) (sd_vae : Option SDict) :
    SplitResult :=
  match sd_vae with
  | none =>
    { unet := (try_filter_state_dict sd g.unet_key_prefixes).1
      vae := (try_filter_state_dict
          (try_filter_state_dict sd g.unet_key_prefixes).2 g.vae_key_prefixes).1
      clips := (split_clip_targets g.clip_target (process_clip_state_dict
          g.process_clip (try_filter_state_dict
            (try_filter_state_dict sd g.unet_key_prefixes).2
            g.vae_key_prefixes).2)).1
      ignored := (split_clip_targets g.clip_target (process_clip_state_dict
          g.process_clip (try_filter_state_dict
            (try_filter_state_dict sd g.unet_key_prefixes).2
            g.vae_key_prefixes).2)).2 }
  | some vsd =>
    { unet := (try_filter_state_dict sd g.unet_key_prefixes).1
      vae := vsd
      clips := (split_clip_targets g.clip_target (process_clip_state_dict
          g.process_clip (try_filter_state_dict sd g.unet_key_prefixes).2)).1
      ignored := (split_clip_targets g.clip_target (process_clip_state_dict
          g.process_clip (try_filter_state_dict sd g.unet_key_prefixes).2)).2 }

/-- The tensor identifiers assigned to some component subset. -/
def split_values (r : SplitResult) : List Nat :=
  r.unet.map Prod.snd ++ (r.vae.map Prod.snd ++
    (r.clips.map (fun c => c.2.map Prod.snd)).flatten)

/-- All tensor identifiers the split accounts for: component subsets plus
dropped keys. -/
def split_all_values (r : SplitResult) : List Nat :=
  split_values r ++ r.ignored.map Prod.snd

theorem key_match_none_iff (ps : List String) (k : String) :
    key_match ps k = none ↔ ∀ p ∈ ps, p.isPrefixOf k = false := by
  induction ps with
  | nil => simp [key_match]
  | cons p rest ih =>
    by_cases hp : p.isPrefixOf k
    · simp [key_match, hp]
    · simp [key_match, hp, ih]

theorem try_filter_values_perm (ps : List String) (sd : SDict) :
    ((try_filter_state_dict sd ps).1.map Prod.snd ++
      (try_filter_state_dict sd ps).2.map Prod.snd).Perm (sd.map Prod.snd) := by
  induction sd with
  | nil => simp [try_filter_state_dict]
  | cons kv rest ih =>
    cases hk : key_match ps kv.1 with
    | some k2 =>
      simpa [try_filter_state_dict, hk] using ih.cons kv.2
    | none =>
      simp only [try_filter_state_dict, hk, List.map_cons]
      exact List.perm_middle.trans (ih.cons kv.2)

theorem try_filter_mem_rem {kv : String × Nat} {sd : SDict} {ps : List String}
    (h : kv ∈ sd) (hm : key_match ps kv.1 = none) :
    kv ∈ (try_filter_state_dict sd ps).2 := by
  induction sd with
  | nil => cases h
  | cons kv0 rest ih =>
    rcases List.mem_cons.mp h with rfl | h0
    · simp [try_filter_state_dict, hm]
    · cases hk : key_match ps kv0.1 with
      | some k2 => simpa [try_filter_state_dict, hk] using ih h0
      | none =>
        simp only [try_filter_state_dict, hk, List.mem_cons]
        exact Or.inr (ih h0)

theorem split_clip_values_perm (ts : List (String × String)) (sd : SDict) :
    (((split_clip_targets ts sd).1.map (fun c => c.2.map Prod.snd)).flatten ++
      (split_clip_targets ts sd).2.map Prod.snd).Perm (sd.map Prod.snd) := by
  induction ts generalizing sd with
  | nil => simp [split_clip_targets]
  | cons t rest ih =>
    simp only [split_clip_targets, List.map_cons, List.flatten_cons,
      List.append_assoc]
    exact (List.Perm.append_left _
      (ih (try_filter_state_dict sd [t.1 ++ "."]).2)).trans
      (try_filter_values_perm [t.1 ++ "."] sd)

theorem split_clip_mem_rem {kv : String × Nat} {ts : List (String × String)}
    {sd : SDict} (h : kv ∈ sd)
    (hm : ∀ t ∈ ts, key_match [t.1 ++ "."] kv.1 = none) :
    kv ∈ (split_clip_targets ts sd).2 := by
  induction ts generalizing sd with
  | nil => simpa [split_clip_targets] using h
  | cons t rest ih =>
    simp only [split_clip_targets]
    exact ih (try_filter_mem_rem h (hm t (List.mem_cons_self t rest)))
      (fun t' ht' => hm t' (List.mem_cons_of_mem t ht'))

theorem process_clip_values (f : String → String) (sd : SDict) :
    (process_clip_state_dict f sd).map Prod.snd = sd.map Prod.snd := by
  induction sd with
  | nil => rfl
  | cons kv rest ih => simp [process_clip_state_dict]

theorem split_clip_targets_names (ts : List (String × String)) (sd : SDict) :
    (split_clip_targets ts sd).1.map Prod.fst = ts.map Prod.snd := by
  induction ts generalizing sd with
  | nil => rfl
  | cons t rest ih => simp [split_clip_targets, ih]

end Forge

namespace Forge

theorem perm_assemble {u v cj ig rem2 rem1 sdv : List Nat}
    (h1 : (u ++ rem1).Perm sdv) (h2 : (v ++ rem2).Perm rem1)
    (h3 : (cj ++ ig).Perm rem2) : ((u ++ (v ++ cj)) ++ ig).Perm sdv := by
  have he : (u ++ (v ++ cj)) ++ ig = u ++ (v ++ (cj ++ ig)) := by
    simp [List.append_assoc]
  rw [he]
  exact (List.Perm.append_left u ((List.Perm.append_left v h3).trans h2)).trans h1

/-- C3: For a weight blob accepted by the guesser (no external VAE blob),
`split_state_dict` produces a partition modulo drops: all assigned and
dropped tensors together are a permutation of the blob's tensors; the subset
key-counts plus the dropped-key count sum to the blob's key count; every
tensor assigned to a component subset appears in exactly one subset; and a
key claimed by no recognized prefix contributes to no subset. The
injectivity hypothesis on the `clipProcessing` renaming records that the
association-list embedding agrees with Python dict semantics (the
architecture transforms are injective prefix rewrites); distinct tensor
identifiers model distinct tensor objects. -/
theorem split_state_dict_partition (g : Guess) (sd : SDict)
    (_hinj : Function.Injective g.process_clip)
    (hnd : (sd.map Prod.snd).Nodup) :
    (split_all_values (split_state_dict g sd none)).Perm (sd.map Prod.snd) ∧
    ((split_state_dict g sd none).unet.length
      + ((split_state_dict g sd none).vae.length
        + ((((split_state_dict g sd none).clips.map
              (fun c => c.2.length)).sum)
          + (split_state_dict g sd none).ignored.length)) = sd.length) ∧
    (∀ x ∈ split_values (split_state_dict g sd none),
      (split_all_values (split_state_dict g sd none)).count x = 1) ∧
    (∀ kv ∈ sd, key_match g.unet_key_prefixes kv.1 = none →
      key_match g.vae_key_prefixes kv.1 = none →
      (∀ t ∈ g.clip_target,
        (t.1 ++ ".").isPrefixOf (g.process_clip kv.1) = false) →
      kv.2 ∉ split_values (split_state_dict g sd none)) := by
  have hcj : ((((split_clip_targets g.clip_target (process_clip_state_dict
        g.process_clip (try_filter_state_dict
          (try_filter_state_dict sd g.unet_key_prefixes).2
          g.vae_key_prefixes).2)).1.map
          (fun c => c.2.map Prod.snd)).flatten)
        ++ (split_clip_targets g.clip_target (process_clip_state_dict
          g.process_clip (try_filter_state_dict
            (try_filter_state_dict sd g.unet_key_prefixes).2
            g.vae_key_prefixes).2)).2.map Prod.snd).Perm
      ((try_filter_state_dict (try_filter_state_dict sd
        g.unet_key_prefixes).2 g.vae_key_prefixes).2.map Prod.snd) := by
    have h := split_clip_values_perm g.clip_target (process_clip_state_dict
      g.process_clip (try_filter_state_dict
        (try_filter_state_dict sd g.unet_key_prefixes).2
        g.vae_key_prefixes).2)
    rwa [process_clip_values] at h
  have hperm : (split_all_values (split_state_dict g sd none)).Perm
      (sd.map Prod.snd) := by
    simp only [split_all_values, split_values, split_state_dict]
    exact perm_assemble (try_filter_values_perm g.unet_key_prefixes sd)
      (try_filter_values_perm g.vae_key_prefixes
        (try_filter_state_dict sd g.unet_key_prefixes).2) hcj
  have hndall : (split_all_values (split_state_dict g sd none)).Nodup :=
    hperm.nodup_iff.mpr hnd
  refine ⟨hperm, ?_, ?_, ?_⟩
  · have hlen := hperm.length_eq
    simp only [split_all_values, split_values, List.length_append,
      List.length_flatten, List.map_map, List.length_map,
      Function.comp_def] at hlen ⊢
    omega
  · intro x hx
    have hxall : x ∈ split_all_values (split_state_dict g sd none) := by
      have he : split_all_values (split_state_dict g sd none)
          = split_values (split_state_dict g sd none)
            ++ (split_state_dict g sd none).ignored.map Prod.snd := rfl
      rw [he]
      exact List.mem_append_left _ hx
    exact List.count_eq_one_of_mem hndall hxall
  · intro kv hkv hu hv hclip
    have m1 : kv ∈ (try_filter_state_dict sd g.unet_key_prefixes).2 :=
      try_filter_mem_rem hkv hu
    have m2 : kv ∈ (try_filter_state_dict
        (try_filter_state_dict sd g.unet_key_prefixes).2
        g.vae_key_prefixes).2 :=
      try_filter_mem_rem m1 hv
    have m3 : (g.process_clip kv.1, kv.2) ∈ process_clip_state_dict
        g.process_clip (try_filter_state_dict
          (try_filter_state_dict sd g.unet_key_prefixes).2
          g.vae_key_prefixes).2 :=
      List.mem_map_of_mem (fun kv => (g.process_clip kv.1, kv.2)) m2
    have m4 : (g.process_clip kv.1, kv.2) ∈ (split_clip_targets g.clip_target
        (process_clip_state_dict g.process_clip (try_filter_state_dict
          (try_filter_state_dict sd g.unet_key_prefixes).2
          g.vae_key_prefixes).2)).2 :=
      split_clip_mem_rem m3 (fun t ht => by simp [key_match, hclip t ht])
    have hvig : kv.2 ∈ (split_state_dict g sd none).ignored.map Prod.snd := by
      simp only [split_state_dict]
      exact List.mem_map.mpr ⟨(g.process_clip kv.1, kv.2), m4, rfl⟩
    have he : split_all_values (split_state_dict g sd none)
        = split_values (split_state_dict g sd none)
          ++ (split_state_dict g sd none).ignored.map Prod.snd := rfl
    have hdisj := (List.nodup_append.mp (he ▸ hndall)).2.2
    intro hvs
    exact hdisj hvs hvig

/-- A concrete SD1.5-shaped guess used to witness the partition theorem:
unet and vae prefixes, one clip target, identity `clipProcessing`. -/
def demo_guess : Guess :=
  { arch := Arch.sd15
    huggingface_repo := "runwayml/stable-diffusion-v1-5"
    unet_target := "unet"
    vae_target := "vae"
    unet_key_prefixes := ["model.diffusion_model."]
    vae_key_prefixes := ["first_stage_model."]
    clip_target := [("cond_stage_model", "text_encoder")]
    process_clip := id }

/-- A concrete four-key blob: one unet key, one vae key, one text-encoder
key, one unrecognized key. -/
def demo_sd : SDict :=
  [("model.diffusion_model.input_blocks.0.weight", 0),
   ("first_stage_model.encoder.conv_in.weight", 1),
   ("cond_stage_model.transformer.text_model.final.weight", 2),
   ("unrelated.extra_tensor", 3)]

/-- Witness for `split_state_dict_partition` on `demo_guess`/`demo_sd`: the
subset key-counts plus the dropped-key count equal the blob's key count. -/
theorem split_state_dict_partition_demo :
    (split_state_dict demo_guess demo_sd none).unet.length
      + ((split_state_dict demo_guess demo_sd none).vae.length
        + ((((split_state_dict demo_guess demo_sd none).clips.map
              (fun c => c.2.length)).sum)
          + (split_state_dict demo_guess demo_sd none).ignored.length))
      = demo_sd.length :=
  (split_state_dict_partition demo_guess demo_sd (fun _ _ h => h)
    (by decide)).2.1

/-- C4: an externally supplied VAE blob becomes the VAE subset verbatim, and
the VAE subset is then independent of the main blob — no VAE-prefixed key of
the main blob contributes to it (`loader.py` line 160). -/
theorem split_external_vae (g : Guess) (sd vsd : SDict) :
    (split_state_dict g sd (some vsd)).vae = vsd ∧
    (∀ sd', (split_state_dict g sd (some vsd)).vae
      = (split_state_dict g sd' (some vsd)).vae) :=
  ⟨rfl, fun _ => rfl⟩

/-- Formalisation of the spec's C9 sentence, for comparison with the source:
the `clipProcessing` renaming is applied once to the whole remaining blob,
and only afterwards are the per-text-encoder prefix filters run. -/
def clip_subsets_once (f : String → String) (ts : List (String × String))
    (rem : SDict) : List (String × SDict) :=
  (split_clip_targets ts (process_clip_state_dict f rem)).1

/-- C9: in `split_state_dict` the architecture's `clipProcessing` transform
runs exactly once over the whole remaining blob (after the unet/vae carving)
before any per-text-encoder prefix filtering — in both the internal-VAE and
external-VAE data flows — and the clip subsets line up one-to-one with the
guess's clip targets. -/
theorem clip_processing_once (g : Guess) (sd : SDict) :
    ((split_state_dict g sd none).clips
      = clip_subsets_once g.process_clip g.clip_target
          (try_filter_state_dict (try_filter_state_dict sd
            g.unet_key_prefixes).2 g.vae_key_prefixes).2) ∧
    (∀ vsd, (split_state_dict g sd (some vsd)).clips
      = clip_subsets_once g.process_clip g.clip_target
          (try_filter_state_dict sd g.unet_key_prefixes).2) ∧
    ((split_state_dict g sd none).clips.map Prod.fst
      = g.clip_target.map Prod.snd) :=
  ⟨rfl, fun _ => rfl, split_clip_targets_names g.clip_target _⟩

end Forge

namespace Forge

/-! ## 4-bit quantization state (`operations_bnb.py`)

Statistics tensors are abstract identifiers with a device placement; the
numeric contents never influence the state-handling control flow being
verified. The quantization kernel itself (bitsandbytes `_quantize`) is
external to the core, so the quantize-now outcome is represented abstractly
by the `quantize_now` constructor. -/

/-- `torch.device.type`: the compute-capable tier is `cuda`. -/
inductive DeviceType where
  | cpu
  | cuda
  deriving DecidableEq, Repr

/-- A torch device: type plus index. -/
structure Device where
  dev_type : DeviceType
  index : Nat
  deriving DecidableEq, Repr

/-- A statistics tensor: abstract identity plus device placement. -/
structure Tensor where
  tid : Nat
  device : Device
  deriving DecidableEq, Repr

/-- `tensor.to(device)`: same tensor contents on the target device. -/
def Tensor.to (t : Tensor) (d : Device) : Tensor :=
  { t with device := d }

/-- The second-level statistics (`state.state2`) of a nested bitsandbytes
`QuantState`: the fields `copy_quant_state` reads (`operations_bnb.py`
lines 21-29). -/
structure QuantState2 where
  absmax : Tensor
  shape : List Nat
  code : Tensor
  blocksize : Nat
  quant_type : String
  dtype : Dtype
  deriving DecidableEq, Repr

/-- A bitsandbytes `QuantState` as used by `copy_quant_state`
(`operations_bnb.py` lines 34-43): reconstruction statistics for one packed
4-bit tensor; `offset` and `state2` are present exactly in the nested
(compressed-statistics) case. -/
structure QuantState where
  absmax : Tensor
  shape : List Nat
  code : Tensor
  blocksize : Nat
  quant_type : String
  dtype : Dtype
  offset : Option Tensor
  state2 : Option QuantState2
  deriving DecidableEq, Repr

/-- `state.nested` — in bitsandbytes this is "a second-level state is
present". -/
def QuantState.nested (s : QuantState) : Bool :=
  s.state2.isSome

/-- `copy_quant_state`, `operations_bnb.py` lines 15-43: relocate every
statistics tensor of a quantization state to the target device, preserving
shape, blocksize, quant type, reconstruction dtype and nesting; with no
target device the state's own device (`state.absmax.device`) is kept. -/
def copy_quant_state (state : Option QuantState) (device : Option Device) :
    Option QuantState :=
  match state with
  | none => none
  | some s =>
    let dev := device.getD s.absmax.device
    some
      { absmax := s.absmax.to dev
        shape := s.shape
        code := s.code.to dev
        blocksize := s.blocksize
        quant_type := s.quant_type
        dtype := s.dtype
        offset := if s.nested then s.offset.map (fun t => t.to dev) else none
        state2 :=
          match s.state2 with
          | some s2 =>
            some { absmax := s2.absmax.to dev
                   shape := s2.shape
                   code := s2.code.to dev
                   blocksize := s2.blocksize
                   quant_type := s2.quant_type
                   dtype := s2.dtype }
          | none => none }

/-- The fields of `ForgeParams4bit` that its `to` method reads and copies
(`operations_bnb.py` lines 52-62). -/
structure ForgeParams4bit where
  data : Tensor
  requires_grad : Bool
  quant_state : Option QuantState
  blocksize : Nat
  compress_statistics : Bool
  quant_type : String
  quant_storage : Dtype
  bnb_quantized : Bool
  deriving DecidableEq, Repr

/-- The owning module's state touched by `ForgeParams4bit.to` line 63
(`self.module.quant_state = n.quant_state`). -/
structure ForgeModule where
  quant_state : Option QuantState
  deriving DecidableEq, Repr

/-- The new parameter built on the non-quantizing path of
`ForgeParams4bit.to` (`operations_bnb.py` lines 52-62):
`torch.nn.Parameter.to` relocates the data when a device is given, and every
quantization field is copied over, the quant state through
`copy_quant_state`. -/
def relocated_params (self : ForgeParams4bit) (device : Option Device) :
    ForgeParams4bit :=
  { data :=
      match device with
      | some d => self.data.to d
      | none => self.data
    requires_grad := self.requires_grad
    quant_state := copy_quant_state self.quant_state device
    blocksize := self.blocksize
    compress_statistics := self.compress_statistics
    quant_type := self.quant_type
    quant_storage := self.quant_storage
    bnb_quantized := self.bnb_quantized }

/-- Outcome of `ForgeParams4bit.to`: either the quantize-now path
`self._quantize(device)` (the quantization itself is performed by the
external bitsandbytes kernel), or the relocation path returning the new
parameter together with the owning module's state after the reassignment on
line 63. -/
inductive ToResult where
  | quantize_now (device : Device)
  | moved (n : ForgeParams4bit) (module_after : ForgeModule)
  deriving DecidableEq, Repr

/-- `ForgeParams4bit.to`, `operations_bnb.py` lines 47-64. The dtype,
non-blocking and memory-format components parsed by `torch._C._nn._parse_to`
do not enter the branch condition and do not affect the quantization state,
so only the parsed device is modelled. `m` is the owning module's state
before the call. -/
def ForgeParams4bit.to (self : ForgeParams4bit) (_m : ForgeModule)
    (device : Option Device) : ToResult :=
  match device with
  | some d =>
    if d.dev_type = DeviceType.cuda ∧ self.bnb_quantized = false then
      ToResult.quantize_now d
    else
      ToResult.moved (relocated_params self (some d))
        { quant_state := (relocated_params self (some d)).quant_state }
  | none =>
    ToResult.moved (relocated_params self none)
      { quant_state := (relocated_params self none).quant_state }

end Forge

namespace Forge

/-- C5: a placement request targeting the cuda tier on a not-yet-quantized
parameter quantizes at that moment; any other placement request on an
already-quantized parameter relocates state only — every statistics tensor
(absmax, code, and in the nested case offset and the second level's absmax
and code) moves to the target device while shape, blocksize, quant type,
reconstruction dtype and nesting are preserved, the quantized flag is
unchanged and no quantization is triggered. -/
theorem forge_params_to_behavior (self : ForgeParams4bit) (m : ForgeModule)
    (d : Device) :
    (d.dev_type = DeviceType.cuda → self.bnb_quantized = false →
      ForgeParams4bit.to self m (some d) = ToResult.quantize_now d) ∧
    (self.bnb_quantized = true →
      ForgeParams4bit.to self m (some d)
        = ToResult.moved (relocated_params self (some d))
            { quant_state := (relocated_params self (some d)).quant_state }) ∧
    ((relocated_params self (some d)).bnb_quantized = self.bnb_quantized ∧
     (relocated_params self (some d)).blocksize = self.blocksize ∧
     (relocated_params self (some d)).quant_type = self.quant_type ∧
     (relocated_params self (some d)).quant_storage = self.quant_storage ∧
     (relocated_params self (some d)).compress_statistics
       = self.compress_statistics) ∧
    (∀ s s', self.quant_state = some s →
      copy_quant_state self.quant_state (some d) = some s' →
      s'.absmax = s.absmax.to d ∧ s'.absmax.device = d ∧
      s'.absmax.tid = s.absmax.tid ∧
      s'.code = s.code.to d ∧ s'.code.device = d ∧
      s'.code.tid = s.code.tid ∧
      s'.shape = s.shape ∧ s'.blocksize = s.blocksize ∧
      s'.quant_type = s.quant_type ∧ s'.dtype = s.dtype ∧
      s'.nested = s.nested ∧
      (s.nested = true → ∀ t, s.offset = some t →
        s'.offset = some (t.to d)) ∧
      (∀ s2, s.state2 = some s2 →
        s'.state2 = some { absmax := s2.absmax.to d
                           shape := s2.shape
                           code := s2.code.to d
                           blocksize := s2.blocksize
                           quant_type := s2.quant_type
                           dtype := s2.dtype })) := by
  refine ⟨fun hc hq => ?_, fun hq => ?_, ?_, ?_⟩
  · simp [ForgeParams4bit.to, hc, hq]
  · simp [ForgeParams4bit.to, hq]
  · simp [relocated_params]
  · intro s s' hs hcopy
    rw [hs] at hcopy
    simp only [copy_quant_state, Option.getD_some, Option.some.injEq] at hcopy
    subst hcopy
    refine ⟨rfl, rfl, rfl, rfl, rfl, rfl, rfl, rfl, rfl, rfl, ?_, ?_, ?_⟩
    · simp [QuantState.nested]
      cases hs2 : s.state2 <;> simp [QuantState.nested, hs2]
    · intro hn t ht
      simp [hn, ht]
    · intro s2 hs2
      simp [hs2]

/-- Witness for `forge_params_to_behavior`: a concrete nested quantized
parameter relocated from cuda to cpu keeps its statistics identities and
nesting while the devices move; a concrete unquantized parameter sent to
cuda takes the quantize-now path. -/
theorem forge_params_to_behavior_spot :
    ForgeParams4bit.to
        { data := { tid := 0, device := { dev_type := DeviceType.cpu, index := 0 } }
          requires_grad := false
          quant_state := some
            { absmax := { tid := 1, device := { dev_type := DeviceType.cuda, index := 0 } }
              shape := [4, 4]
              code := { tid := 2, device := { dev_type := DeviceType.cuda, index := 0 } }
              blocksize := 64
              quant_type := "nf4"
              dtype := Dtype.float16
              offset := some { tid := 3, device := { dev_type := DeviceType.cuda, index := 0 } }
              state2 := some
                { absmax := { tid := 4, device := { dev_type := DeviceType.cuda, index := 0 } }
                  shape := [4]
                  code := { tid := 5, device := { dev_type := DeviceType.cuda, index := 0 } }
                  blocksize := 256
                  quant_type := "fp4"
                  dtype := Dtype.float32 } }
          blocksize := 64
          compress_statistics := true
          quant_type := "nf4"
          quant_storage := Dtype.float16
          bnb_quantized := true }
        { quant_state := none }
        (some { dev_type := DeviceType.cpu, index := 0 })
      = ToResult.moved
          (relocated_params
            { data := { tid := 0, device := { dev_type := DeviceType.cpu, index := 0 } }
              requires_grad := false
              quant_state := some
                { absmax := { tid := 1, device := { dev_type := DeviceType.cuda, index := 0 } }
                  shape := [4, 4]
                  code := { tid := 2, device := { dev_type := DeviceType.cuda, index := 0 } }
                  blocksize := 64
                  quant_type := "nf4"
                  dtype := Dtype.float16
                  offset := some { tid := 3, device := { dev_type := DeviceType.cuda, index := 0 } }
                  state2 := some
                    { absmax := { tid := 4, device := { dev_type := DeviceType.cuda, index := 0 } }
                      shape := [4]
                      code := { tid := 5, device := { dev_type := DeviceType.cuda, index := 0 } }
                      blocksize := 256
                      quant_type := "fp4"
                      dtype := Dtype.float32 } }
              blocksize := 64
              compress_statistics := true
              quant_type := "nf4"
              quant_storage := Dtype.float16
              bnb_quantized := true }
            (some { dev_type := DeviceType.cpu, index := 0 }))
          { quant_state :=
              (relocated_params
                { data := { tid := 0, device := { dev_type := DeviceType.cpu, index := 0 } }
                  requires_grad := false
                  quant_state := some
                    { absmax := { tid := 1, device := { dev_type := DeviceType.cuda, index := 0 } }
                      shape := [4, 4]
                      code := { tid := 2, device := { dev_type := DeviceType.cuda, index := 0 } }
                      blocksize := 64
                      quant_type := "nf4"
                      dtype := Dtype.float16
                      offset := some { tid := 3, device := { dev_type := DeviceType.cuda, index := 0 } }
                      state2 := some
                        { absmax := { tid := 4, device := { dev_type := DeviceType.cuda, index := 0 } }
                          shape := [4]
                          code := { tid := 5, device := { dev_type := DeviceType.cuda, index := 0 } }
                          blocksize := 256
                          quant_type := "fp4"
                          dtype := Dtype.float32 } }
                  blocksize := 64
                  compress_statistics := true
                  quant_type := "nf4"
                  quant_storage := Dtype.float16
                  bnb_quantized := true }
                (some { dev_type := DeviceType.cpu, index := 0 })).quant_state } ∧
    ForgeParams4bit.to
        { data := { tid := 6, device := { dev_type := DeviceType.cpu, index := 0 } }
          requires_grad := false
          quant_state := none
          blocksize := 64
          compress_statistics := true
          quant_type := "nf4"
          quant_storage := Dtype.float16
          bnb_quantized := false }
        { quant_state := none }
        (some { dev_type := DeviceType.cuda, index := 0 })
      = ToResult.quantize_now { dev_type := DeviceType.cuda, index := 0 } := by
  constructor
  · exact (forge_params_to_behavior _ _ _).2.1 rfl
  · exact (forge_params_to_behavior _ _ _).1 rfl rfl

end Forge

namespace Forge

/-- C10: on the non-quantizing path, `ForgeParams4bit.to` is not
side-effect-free on the owning module: besides returning a new parameter
carrying a relocated copy of the quantization state, it reassigns the
module's `quant_state` to that copy's state (`operations_bnb.py` line 63), so
when the relocation actually changes device the module's state field differs
from what it held before, even though the original parameter object is left
in place. -/
theorem forge_params_to_module_effect (self : ForgeParams4bit)
    (m : ForgeModule) (d : Device) (s : QuantState)
    (hq : self.bnb_quantized = true) (hm : m.quant_state = self.quant_state)
    (hs : self.quant_state = some s) (hd : s.absmax.device ≠ d) :
    ForgeParams4bit.to self m (some d)
      = ToResult.moved (relocated_params self (some d))
          { quant_state := (relocated_params self (some d)).quant_state } ∧
    (relocated_params self (some d)).quant_state
      = copy_quant_state self.quant_state (some d) ∧
    ({ quant_state := (relocated_params self (some d)).quant_state }
      : ForgeModule) ≠ m := by
  refine ⟨by simp [ForgeParams4bit.to, hq], rfl, ?_⟩
  intro he
  have h1 : (({ quant_state := (relocated_params self (some d)).quant_state }
      : ForgeModule)).quant_state = m.quant_state := congrArg ForgeModule.quant_state he
  rw [hm, hs] at h1
  simp only [relocated_params, hs, copy_quant_state, Option.getD_some,
    Option.some.injEq] at h1
  have h2 := congrArg QuantState.absmax h1
  have h3 := congrArg Tensor.device h2
  simp only [Tensor.to] at h3
  exact hd h3.symm

/-- Witness for `forge_params_to_module_effect`: relocating a concrete
quantized parameter from cuda to cpu rewrites the owning module's state
field to a different quantization state. -/
theorem forge_params_to_module_effect_spot :
    ({ quant_state :=
        (relocated_params
          { data := { tid := 0, device := { dev_type := DeviceType.cuda, index := 0 } }
            requires_grad := false
            quant_state := some
              { absmax := { tid := 1, device := { dev_type := DeviceType.cuda, index := 0 } }
                shape := [8]
                code := { tid := 2, device := { dev_type := DeviceType.cuda, index := 0 } }
                blocksize := 64
                quant_type := "nf4"
                dtype := Dtype.float16
                offset := none
                state2 := none }
            blocksize := 64
            compress_statistics := false
            quant_type := "nf4"
            quant_storage := Dtype.float16
            bnb_quantized := true }
          (some { dev_type := DeviceType.cpu, index := 0 })).quant_state }
      : ForgeModule)
      ≠ { quant_state := some
            { absmax := { tid := 1, device := { dev_type := DeviceType.cuda, index := 0 } }
              shape := [8]
              code := { tid := 2, device := { dev_type := DeviceType.cuda, index := 0 } }
              blocksize := 64
              quant_type := "nf4"
              dtype := Dtype.float16
              offset := none
              state2 := none } } :=
  (forge_params_to_module_effect
    { data := { tid := 0, device := { dev_type := DeviceType.cuda, index := 0 } }
      requires_grad := false
      quant_state := some
        { absmax := { tid := 1, device := { dev_type := DeviceType.cuda, index := 0 } }
          shape := [8]
          code := { tid := 2, device := { dev_type := DeviceType.cuda, index := 0 } }
          blocksize := 64
          quant_type := "nf4"
          dtype := Dtype.float16
          offset := none
          state2 := none }
      blocksize := 64
      compress_statistics := false
      quant_type := "nf4"
      quant_storage := Dtype.float16
      bnb_quantized := true }
    { quant_state := some
        { absmax := { tid := 1, device := { dev_type := DeviceType.cuda, index := 0 } }
          shape := [8]
          code := { tid := 2, device := { dev_type := DeviceType.cuda, index := 0 } }
          blocksize := 64
          quant_type := "nf4"
          dtype := Dtype.float16
          offset := none
          state2 := none } }
    { dev_type := DeviceType.cpu, index := 0 }
    { absmax := { tid := 1, device := { dev_type := DeviceType.cuda, index := 0 } }
      shape := [8]
      code := { tid := 2, device := { dev_type := DeviceType.cuda, index := 0 } }
      blocksize := 64
      quant_type := "nf4"
      dtype := Dtype.float16
      offset := none
      state2 := none }
    rfl rfl rfl (by decide)).2.2

end Forge

namespace Forge

/-! ## Quantization state serialization (`ForgeLoader4Bit`, lines 76-102)

The save path writes each quantization statistic as an individually keyed
sub-entry under the owning tensor's name (`destination[prefix + "weight." + k]`,
line 81); the load path collects the keys under `prefix + "weight."`, strips
that prefix (line 85), detects quantized entries by the substring
`bitsandbytes` (line 87), and rebuilds the state through
`ForgeParams4bit.from_prequantized` (line 90). The bitsandbytes
`QuantState.as_dict(packed=True)` / `from_dict` pair is external library
code, modelled from spec §4.4. Python's `str.startswith` and slicing are
embedded through the character lists of the strings. -/

/-- A value stored in a serialized state dict: a statistics tensor or one of
the scalar/shape metadata entries. -/
inductive PackedVal where
  | tens (t : Tensor)
  | nat_val (n : Nat)
  | str_val (s : String)
  | dtype_val (d : Dtype)
  | shape_val (l : List Nat)
  deriving DecidableEq, Repr

/-- Python's `key.startswith(p)`. -/
def str_startswith (p k : String) : Bool :=
  p.toList.isPrefixOf k.toList

/-- Containment of one character list in another, at any position. -/
def char_list_contains (hay needle : List Char) : Bool :=
  match hay with
  | [] => needle.isEmpty
  | c :: rest => needle.isPrefixOf (c :: rest) || char_list_contains rest needle

/-- Python's `sub in k` on strings. -/
def str_contains (k sub : String) : Bool :=
  char_list_contains k.toList sub.toList

/-- Python's `key[len(p):]`. -/
def str_strip (p k : String) : String :=
  String.mk (k.toList.drop p.toList.length)

/-- Modelled from the spec: bitsandbytes `QuantState.as_dict(packed=True)`
(external library code). Per spec §4.4 the pack path serializes `absmax`,
`code`, `blocksize`, `quantType`, `dtype` and — if nested — the second-level
statistics and `offset`, each as an individually keyed sub-entry; the
composite `quant_state.bitsandbytes` entry carries the quant type and is what marks
the tensor as 4-bit quantized for the loader's `bitsandbytes` substring
test. -/
def quant_state_as_dict (qs : QuantState) : List (String × PackedVal) :=
  [("absmax", PackedVal.tens qs.absmax),
   ("quant_map", PackedVal.tens qs.code),
   ("blocksize", PackedVal.nat_val qs.blocksize),
   ("dtype", PackedVal.dtype_val qs.dtype),
   ("shape", PackedVal.shape_val qs.shape),
   ("quant_state.bitsandbytes", PackedVal.str_val qs.quant_type)]
  ++ (match qs.offset, qs.state2 with
      | some off, some s2 =>
        [("offset", PackedVal.tens off),
         ("nested_absmax", PackedVal.tens s2.absmax),
         ("nested_quant_map", PackedVal.tens s2.code),
         ("nested_blocksize", PackedVal.nat_val s2.blocksize),
         ("nested_quant_type", PackedVal.str_val s2.quant_type),
         ("nested_dtype", PackedVal.dtype_val s2.dtype),
         ("nested_shape", PackedVal.shape_val s2.shape)]
      | _, _ => [])

/-- `ForgeLoader4Bit._save_to_state_dict` (lines 76-82), restricted to the
quantization entries it contributes: each packed sub-entry lands in the
destination under `prefix + "weight." + k`. -/
def save_quant_entries (pfx : String) (qs : QuantState) :
    List (String × PackedVal) :=
  (quant_state_as_dict qs).map (fun kv => (pfx ++ "weight." ++ kv.1, kv.2))

/-- The key collection of `_load_from_state_dict` (lines 85-88): entries
whose key starts with `prefix + "weight."`, with that lead stripped. -/
def collect_quant_state_keys (pfx : String)
    (state_dict : List (String × PackedVal)) : List (String × PackedVal) :=
  (state_dict.filter (fun kv => str_startswith (pfx ++ "weight.") kv.1)).map
    (fun kv => (str_strip (pfx ++ "weight.") kv.1, kv.2))

/-- The quantized-entry detection of line 87: some collected key contains
the substring `bitsandbytes`. -/
def has_bitsandbytes_key (d : List (String × PackedVal)) : Bool :=
  d.any (fun kv => str_contains kv.1 "bitsandbytes")

/-- Modelled from the spec: the state reconstruction performed inside
`ForgeParams4bit.from_prequantized` (bitsandbytes `QuantState.from_dict`,
external library code). Per spec §4.4 the unpack path rebuilds the
`QuantState` from the keyed statistics sub-entries — without any numeric
dequantization — restoring the nested second level exactly when its entries
are present. -/
def quant_state_from_dict (d : List (String × PackedVal)) :
    Option QuantState :=
  match d.lookup "absmax", d.lookup "quant_map", d.lookup "blocksize",
      d.lookup "dtype", d.lookup "shape",
      d.lookup "quant_state.bitsandbytes" with
  | some (PackedVal.tens a), some (PackedVal.tens c),
      some (PackedVal.nat_val b), some (PackedVal.dtype_val dt),
      some (PackedVal.shape_val sh), some (PackedVal.str_val qt) =>
    match d.lookup "offset", d.lookup "nested_absmax",
        d.lookup "nested_quant_map", d.lookup "nested_blocksize",
        d.lookup "nested_quant_type", d.lookup "nested_dtype",
        d.lookup "nested_shape" with
    | some (PackedVal.tens off), some (PackedVal.tens na),
        some (PackedVal.tens nc), some (PackedVal.nat_val nb),
        some (PackedVal.str_val nqt), some (PackedVal.dtype_val ndt),
        some (PackedVal.shape_val nsh) =>
      some { absmax := a, shape := sh, code := c, blocksize := b,
             quant_type := qt, dtype := dt, offset := some off,
             state2 := some { absmax := na, shape := nsh, code := nc,
                              blocksize := nb, quant_type := nqt,
                              dtype := ndt } }
    | _, _, _, _, _, _, _ =>
      some { absmax := a, shape := sh, code := c, blocksize := b,
             quant_type := qt, dtype := dt, offset := none, state2 := none }
  | _, _, _, _, _, _ => none

theorem list_isPrefixOf_append (l1 l2 : List Char) :
    l1.isPrefixOf (l1 ++ l2) = true := by
  induction l1 with
  | nil => simp [List.isPrefixOf]
  | cons c rest ih => simp [List.isPrefixOf, ih]

theorem str_startswith_append (p s : String) :
    str_startswith p (p ++ s) = true := by
  have he : (p ++ s).toList = p.toList ++ s.toList := rfl
  simp [str_startswith, he, list_isPrefixOf_append]

theorem str_strip_append (p s : String) : str_strip p (p ++ s) = s := by
  have he : (p ++ s).toList = p.toList ++ s.toList := rfl
  simp [str_strip, he, List.drop_left]

theorem collect_save_quant (pfx : String) (qs : QuantState) :
    collect_quant_state_keys pfx (save_quant_entries pfx qs)
      = quant_state_as_dict qs := by
  have hgen : ∀ l : List (String × PackedVal),
      collect_quant_state_keys pfx
        (l.map (fun kv => (pfx ++ "weight." ++ kv.1, kv.2))) = l := by
    intro l
    induction l with
    | nil => rfl
    | cons kv rest ih =>
      have hpre : str_startswith (pfx ++ "weight.") (pfx ++ "weight." ++ kv.1)
          = true := by
        have he : pfx ++ "weight." ++ kv.1 = (pfx ++ "weight.") ++ kv.1 := rfl
        rw [he, str_startswith_append]
      have hstr : str_strip (pfx ++ "weight.") (pfx ++ "weight." ++ kv.1)
          = kv.1 := by
        have he : pfx ++ "weight." ++ kv.1 = (pfx ++ "weight.") ++ kv.1 := rfl
        rw [he, str_strip_append]
      simp only [collect_quant_state_keys] at ih ⊢
      simp [hpre, hstr, ih]
  exact hgen (quant_state_as_dict qs)

end Forge

namespace Forge

/-- C6: serializing a quantization state via the save path (individually
keyed sub-entries under the owning tensor's name) and loading those entries
back via the load path (prefix collection and stripping, then state
reconstruction) yields an identical quantization state — same absmax, code,
blocksize, quant type, reconstruction dtype and nesting — in both the nested
and the non-nested case; and the collected entries trip the load path's
`bitsandbytes` detection. The hypothesis is the `QuantState` well-formedness
invariant of spec §3: `offset` is present exactly when the state is
nested. -/
theorem quant_state_roundtrip (pfx : String) (qs : QuantState)
    (hinv : qs.offset.isSome = qs.state2.isSome) :
    quant_state_from_dict (collect_quant_state_keys pfx
        (save_quant_entries pfx qs)) = some qs ∧
    has_bitsandbytes_key (collect_quant_state_keys pfx
        (save_quant_entries pfx qs)) = true := by
  rw [collect_save_quant]
  obtain ⟨a, sh, c, b, qt, dt, off, s2⟩ := qs
  cases off with
  | none =>
    cases s2 with
    | none => exact ⟨rfl, rfl⟩
    | some s2 => simp at hinv
  | some off =>
    cases s2 with
    | none => simp at hinv
    | some s2 => exact ⟨rfl, rfl⟩

/-- A concrete nested quantization state. -/
def demo_qstate_nested : QuantState :=
  { absmax := { tid := 10, device := { dev_type := DeviceType.cpu, index := 0 } }
    shape := [16, 16]
    code := { tid := 11, device := { dev_type := DeviceType.cpu, index := 0 } }
    blocksize := 64
    quant_type := "nf4"
    dtype := Dtype.bfloat16
    offset := some { tid := 12, device := { dev_type := DeviceType.cpu, index := 0 } }
    state2 := some
      { absmax := { tid := 13, device := { dev_type := DeviceType.cpu, index := 0 } }
        shape := [16]
        code := { tid := 14, device := { dev_type := DeviceType.cpu, index := 0 } }
        blocksize := 256
        quant_type := "fp4"
        dtype := Dtype.float32 } }

/-- A concrete non-nested quantization state. -/
def demo_qstate_plain : QuantState :=
  { absmax := { tid := 20, device := { dev_type := DeviceType.cpu, index := 0 } }
    shape := [8, 8]
    code := { tid := 21, device := { dev_type := DeviceType.cpu, index := 0 } }
    blocksize := 64
    quant_type := "fp4"
    dtype := Dtype.float16
    offset := none
    state2 := none }

/-- Witness for `quant_state_roundtrip`: the round trip reconstructs the
concrete nested and non-nested states under a concrete tensor name. -/
theorem quant_state_roundtrip_spot :
    quant_state_from_dict (collect_quant_state_keys "model.layer1."
        (save_quant_entries "model.layer1." demo_qstate_nested))
      = some demo_qstate_nested ∧
    quant_state_from_dict (collect_quant_state_keys "model.layer1."
        (save_quant_entries "model.layer1." demo_qstate_plain))
      = some demo_qstate_plain :=
  ⟨(quant_state_roundtrip "model.layer1." demo_qstate_nested (by decide)).1,
   (quant_state_roundtrip "model.layer1." demo_qstate_plain (by decide)).1⟩

end Forge

namespace Forge

/-! ## Top-level assembly (`forge_loader`, `loader.py` lines 178-205) and
component-load key tolerance

A loaded component is an abstract tag; the per-component builder (external
library factories plus the weight loading) is a parameter of the loop, as in
the source it is `load_huggingface_component` whose heavy lifting happens in
external factories. The known-architecture registry's config
(`DiffusionPipeline.load_config`, line 188, external) is a parameter mapping
the repo name to its `(component_name, lib_name, cls_name)` triples. -/

abbrev Component := String

/-- The partitioned state dicts keyed the way `split_state_dict` keys its
result dict (`loader.py` lines 158-166): unet target, vae target, then the
clip targets. -/
def SplitResult.as_list (g : Guess) (r : SplitResult) :
    List (String × SDict) :=
  (g.unet_target, r.unet) :: (g.vae_target, r.vae) :: r.clips

/-- Removal of a consumed component subset, `loader.py` lines 195-196
(`del state_dicts[component_name]`, executed only when the component had a
subset). -/
def consume_entry (sds : List (String × SDict)) (cname : String) :
    List (String × SDict) :=
  match sds.lookup cname with
  | some _ => sds.eraseP (fun kv => kv.1 == cname)
  | none => sds

/-- The component loop of `forge_loader`, `loader.py` lines 190-198: each
config triple is offered its partitioned subset; a `None` result (skipped or
unrecognized component) is simply absent from the assembled components, and
the loop continues with the remaining entries either way. -/
def build_components
    (load : String → String → String → Option SDict → Option Component)
    (config : List (String × String × String)) (sds : List (String × SDict)) :
    List (String × Component) :=
  match config with
  | [] => []
  | (cname, lib, cls) :: rest =>
    match load cname lib cls (sds.lookup cname) with
    | some comp => (cname, comp) :: build_components load rest (consume_entry sds cname)
    | none => build_components load rest (consume_entry sds cname)

/-- An entry of the engine registry `possible_models` (`loader.py` line 26):
an engine class together with the architecture identities its
`matched_guesses` accepts. -/
structure EngineClass where
  name : String
  matched_guesses : List Arch
  deriving DecidableEq, Repr

/-- The assembled engine (`loader.py` line 202): the recognized architecture
identity, the engine class that accepted it, and the built components. -/
structure Engine where
  arch : Arch
  engine_name : String
  components : List (String × Component)
  deriving DecidableEq, Repr

/-- The registry scan of `loader.py` lines 200-202: the first engine class
whose `matched_guesses` contains the recognized identity wins. -/
def first_matching_engine (models : List EngineClass) (a : Arch) :
    Option EngineClass :=
  match models with
  | [] => none
  | M :: rest =>
    if M.matched_guesses.contains a then some M
    else first_matching_engine rest a

/-- `forge_loader`, `loader.py` lines 178-205. Recognition
(`huggingface_guess.guess` inside `split_state_dict`, external) is a
parameter returning `none` when no fingerprint matches; its failure is the
broad `except` on line 182 that raises `ValueError('Failed to recognize
model type!')`, modelled as the error outcome. When no registered engine
accepts the identity, the function logs and returns `None` (lines 204-205),
modelled as `ok none`. -/
def forge_loader (guess_fn : SDict → Option Guess)
    (load : String → String → String → Option SDict → Option Component)
    (models : List EngineClass)
    (config_of : String → List (String × String × String))
    (sd : SDict) (sd_vae : Option SDict) : Except String (Option Engine) :=
  match guess_fn sd with
  | none => Except.error "Failed to recognize model type!"
  | some g =>
    match first_matching_engine models g.arch with
    | some M =>
      Except.ok (some
        { arch := g.arch
          engine_name := M.name
          components := build_components load (config_of g.huggingface_repo)
            (SplitResult.as_list g (split_state_dict g sd sd_vae)) })
    | none => Except.ok none

/-- C7: a blob matching no known fingerprint makes recognition fail with the
recognition error (no default or fallback family) and `forge_loader` returns
no engine; and when the recognized identity is accepted by no registered
engine class, `forge_loader` returns no engine either. -/
theorem forge_loader_failure_modes (guess_fn : SDict → Option Guess)
    (load : String → String → String → Option SDict → Option Component)
    (models : List EngineClass)
    (config_of : String → List (String × String × String))
    (sd : SDict) (sd_vae : Option SDict) :
    (guess_fn sd = none →
      forge_loader guess_fn load models config_of sd sd_vae
        = Except.error "Failed to recognize model type!") ∧
    (∀ g, guess_fn sd = some g →
      first_matching_engine models g.arch = none →
      forge_loader guess_fn load models config_of sd sd_vae
        = Except.ok none) := by
  constructor
  · intro h
    simp [forge_loader, h]
  · intro g hg hm
    simp [forge_loader, hg, hm]

/-- Witness for `forge_loader_failure_modes`: a recognizer that matches
nothing produces the recognition error on the demo blob, and a recognized
blob faced with an empty engine registry yields no engine. -/
theorem forge_loader_failure_modes_spot :
    forge_loader (fun _ => none) (fun _ _ _ _ => none) [] (fun _ => [])
        demo_sd none = Except.error "Failed to recognize model type!" ∧
    forge_loader (fun _ => some demo_guess) (fun _ _ _ _ => none) []
        (fun _ => []) demo_sd none = Except.ok none := by
  constructor
  · exact (forge_loader_failure_modes (fun _ => none) (fun _ _ _ _ => none)
      [] (fun _ => []) demo_sd none).1 rfl
  · exact (forge_loader_failure_modes (fun _ => some demo_guess)
      (fun _ _ _ _ => none) [] (fun _ => []) demo_sd none).2 demo_guess rfl rfl

end Forge

namespace Forge

/-- The allow-list passed as `ignore_errors` by the text-encoder branch of
`load_huggingface_component` (`loader.py` lines 66-70): the unused
projection head, the position-id buffer, and the scalar temperature (logit
scale) parameter. -/
def clip_ignore_errors : List String :=
  ["transformer.text_projection.weight",
   "transformer.text_model.embeddings.position_ids",
   "logit_scale"]

/-- Modelled from the spec: `backend/state_dict.py`'s `load_state_dict`
(not under the provided sources). Per spec §4.5/§7, an expected key of the
built module that the supplied subset does not provide is a load-key error
unless it is in the `ignore_errors` allow-list; errors are surfaced with the
component name rather than raised, so loading of other components continues.
Returns the offending keys. -/
def load_state_dict_errors (expected provided ignore_errs : List String) :
    List String :=
  expected.filter (fun k => !provided.contains k && !ignore_errs.contains k)

/-- The text-encoder branch of `load_huggingface_component` restricted to
its key-tolerance behavior (`loader.py` lines 56-72): the component is built
and returned unconditionally (line 72 returns the model after the tolerant
weight load); the surfaced errors accompany it. -/
def load_clip_component (expected provided : List String) :
    Bool × List String :=
  (true, load_state_dict_errors expected provided clip_ignore_errors)

/-- C8: exactly three keys are tolerated when absent from a text-encoder
subset — the projection head, the position-id buffer and the logit scale —
every other missing expected key is surfaced as a load-key error for that
component, the component itself is still returned, and in the component loop
a failing or erroring component does not stop the remaining components from
being processed. -/
theorem clip_missing_key_tolerance (expected provided : List String) :
    ((load_clip_component expected provided).1 = true) ∧
    (clip_ignore_errors
      = ["transformer.text_projection.weight",
         "transformer.text_model.embeddings.position_ids",
         "logit_scale"] ∧ clip_ignore_errors.length = 3) ∧
    (∀ k ∈ expected, k ∈ clip_ignore_errors →
      k ∉ (load_clip_component expected provided).2) ∧
    (∀ k ∈ expected, k ∉ provided → k ∉ clip_ignore_errors →
      k ∈ (load_clip_component expected provided).2) ∧
    (∀ (load : String → String → String → Option SDict → Option Component)
        (cname lib cls : String) (rest : List (String × String × String))
        (sds : List (String × SDict)),
      load cname lib cls (sds.lookup cname) = none →
      build_components load ((cname, lib, cls) :: rest) sds
        = build_components load rest (consume_entry sds cname)) := by
  refine ⟨rfl, ⟨rfl, rfl⟩, ?_, ?_, ?_⟩
  · intro k _hk hmem hin
    simp only [load_clip_component, load_state_dict_errors] at hin
    rw [List.mem_filter] at hin
    simp at hin
    exact hin.2.2 hmem
  · intro k hk hprov hign
    simp [load_clip_component, load_state_dict_errors, List.mem_filter]
    exact ⟨hk, hprov, hign⟩
  · intro load cname lib cls rest sds hnone
    simp [build_components, hnone]

/-- Witness for `clip_missing_key_tolerance`: with the position-id buffer
and one genuine weight both missing, only the genuine weight is surfaced as
an error while the component is still produced. -/
theorem clip_missing_key_tolerance_spot :
    "transformer.text_model.embeddings.position_ids"
      ∉ (load_clip_component
          ["transformer.text_model.embeddings.position_ids",
           "transformer.text_model.encoder.layers.0.self_attn.q_proj.weight"]
          []).2 ∧
    "transformer.text_model.encoder.layers.0.self_attn.q_proj.weight"
      ∈ (load_clip_component
          ["transformer.text_model.embeddings.position_ids",
           "transformer.text_model.encoder.layers.0.self_attn.q_proj.weight"]
          []).2 ∧
    (load_clip_component
        ["transformer.text_model.embeddings.position_ids",
         "transformer.text_model.encoder.layers.0.self_attn.q_proj.weight"]
        []).1 = true := by
  refine ⟨?_, ?_, ?_⟩
  · exact (clip_missing_key_tolerance
      ["transformer.text_model.embeddings.position_ids",
       "transformer.text_model.encoder.layers.0.self_attn.q_proj.weight"]
      []).2.2.1 _ (by decide) (by decide)
  · exact (clip_missing_key_tolerance
      ["transformer.text_model.embeddings.position_ids",
       "transformer.text_model.encoder.layers.0.self_attn.q_proj.weight"]
      []).2.2.2.1 _ (by decide) (by decide) (by decide)
  · exact (clip_missing_key_tolerance
      ["transformer.text_model.embeddings.position_ids",
       "transformer.text_model.encoder.layers.0.self_attn.q_proj.weight"]
      []).1

end Forge
